import Mathlib

/-
Shallow embedding of the trust & enforcement subsystem of nng-fastapi:
src/services/trust_service.py, src/services/editor_service.py,
src/services/watchdog_service.py, src/services/ban_service.py and
src/utils/trust_restrictions.py.

Dates are modelled as integer day counts (datetime.date) and, where the code
works with wall-clock seconds (editor history timestamps), as integer second
counts.  External calls are modelled by environment records carrying each
call's result (Except for calls whose exceptions propagate).
-/

namespace Nng

/-- Violation type: nng_sdk pydantic model (ViolationType). -/
inductive ViolationType
  | warned
  | banned
deriving DecidableEq, Repr, Inhabited

/-- Ban priority tiers: nng_sdk pydantic model (BanPriority). -/
inductive BanPriority
  | green
  | teal
  | orange
  | red
deriving DecidableEq, Repr, Inhabited

/-- Violation record: nng_sdk pydantic model, fields used by src/.
`active` defaults to false when not passed at construction (a freshly
appended warned violation is non-banning, per spec section 4.3). -/
structure Violation where
  type : ViolationType
  group_id : Int
  priority : BanPriority
  date : Int
  active : Bool := false
  watchdog_ref : Option Int := none
deriving DecidableEq, Repr, Inhabited

/-- TrustInfo: nng_sdk pydantic model, all fields read or written by
src/services/trust_service.py. -/
structure TrustInfo where
  trust : Int
  toxicity : Rat := 0
  registration_date : Option Int := none
  nng_join_date : Option Int := none
  odd_groups : Bool := false
  closed_profile : Bool := false
  has_photo : Bool := false
  has_wall_posts : Bool := false
  has_friends : Bool := false
  verified : Bool := false
  joined_main_group : Bool := false
  joined_test_group : Bool := false
  activism : Bool := false
  donate : Bool := false
  has_violation : Bool := false
  had_violation : Bool := false
  has_warning : Bool := false
  had_warning : Bool := false
  used_nng : Bool := false
deriving DecidableEq, Repr, Inhabited

/-- User record: nng_sdk pydantic model, fields used by src/. -/
structure User where
  user_id : Int
  admin : Bool := false
  trust_info : TrustInfo
  groups : List Int := []
  violations : List Violation := []
  invited_by : Option Int := none
deriving DecidableEq, Repr, Inhabited

/-- Modelled from the spec: `User.has_active_violation` lives in nng_sdk (not
under src/).  Spec section 3: "at most one *active* violation of type banned
may exist per user at a time for ban-status purposes (`has_active_violation`)",
so the check holds exactly when some violation is active (and of type banned). -/
def User.has_active_violation (user : User) : Bool :=
  user.violations.any (fun v => v.active && v.type == ViolationType.banned)

/-- Modelled from the spec: `User.has_warning` lives in nng_sdk (not under
src/).  Spec section 4.1: "-10 if currently warned"; a warning is current when
it is a warned violation that has not yet expired.  Expiry is priority-dependent
and computed by the SDK, so it is taken as a parameter `isExpired`. -/
def User.has_warning (isExpired : Violation → Bool) (user : User) : Bool :=
  user.violations.any (fun v => v.type == ViolationType.warned && !isExpired v)

/- ---------------------------------------------------------------------
src/utils/trust_restrictions.py
--------------------------------------------------------------------- -/

/-- Port of `allowed_to_receive_editor` (trust_restrictions.py line 1). -/
def allowed_to_receive_editor (trust : Int) : Bool :=
  trust > 10

/-- Port of `get_groups_restriction` (trust_restrictions.py lines 9-34). -/
def get_groups_restriction (trust : Int) : Int :=
  if trust ≤ 10 then 0
  else if trust ≤ 20 then 1
  else if trust ≤ 30 then 3
  else if trust ≤ 40 then 5
  else if trust ≤ 50 then 10
  else if trust ≤ 60 then 15
  else if trust ≤ 70 then 20
  else if trust ≤ 80 then 25
  else 30

/- ---------------------------------------------------------------------
src/services/trust_service.py : scoring helpers
--------------------------------------------------------------------- -/

/-- Port of `TrustService.TRUST_START_COUNT` (trust_service.py line 21). -/
def TRUST_START_COUNT : Int := 20

/-- Port of `TrustService.clamp_trust` (trust_service.py lines 128-134). -/
def clamp_trust (trust : Int) : Int :=
  if trust < 0 then 0
  else if trust > 100 then 100
  else trust

/-- Port of `TrustService.get_points_for_joined` (trust_service.py lines
214-231); `today` stands for `datetime.date.today()`. -/
def get_points_for_joined (today reg_date : Int) : Int :=
  let days := today - reg_date
  if days < 30 * 6 then 0
  else if days ≤ 30 * 12 then 5
  else if days ≤ 30 * 24 then 15
  else if days ≤ 30 * 48 then 20
  else 25

/-- Port of `TrustService.get_points_for_reg` (trust_service.py lines 233-241). -/
def get_points_for_reg (today reg_date : Int) : Int :=
  if today - reg_date < 30 * 6 then -10 else 0

/-- Port of `TrustService.get_points_for_vk_profile` (trust_service.py lines
243-261). -/
def get_points_for_vk_profile (trust_info : TrustInfo) : Int :=
  (if trust_info.closed_profile then -7 else 0)
  + (if trust_info.has_photo then 3 else 0)
  + (if trust_info.has_wall_posts then 3 else 0)
  + (if trust_info.has_friends then 3 else 0)
  + (if trust_info.verified then 25 else 0)

/-- Port of `TrustService.get_points_for_api_profile` (trust_service.py lines
263-281). -/
def get_points_for_api_profile (trust_info : TrustInfo) : Int :=
  (if trust_info.odd_groups then -15 else 0)
  + (if trust_info.joined_test_group then 10 else 0)
  + (if trust_info.joined_main_group then 3 else 0)
  + (if trust_info.activism then 40 else 0)
  + (if trust_info.donate then 10 else 0)

/-- Port of `TrustService.get_points_for_violation` (trust_service.py lines
283-299). -/
def get_points_for_violation (trust_info : TrustInfo) : Int :=
  (if trust_info.has_violation then -100 else 0)
  + (if trust_info.had_violation then -5 else 0)
  + (if trust_info.has_warning then -10 else 0)
  + (if trust_info.had_warning then -5 else 0)

/-- Port of `TrustService.get_points_for_invite` (trust_service.py lines
301-307): the referral lookup result is passed in (`none` when the lookup
raised, contributing 0); `int(trust * 0.05)` is the truncation `trust * 5 / 100`
(trust is a non-negative integer here, so float and integer arithmetic agree). -/
def get_points_for_invite (referral : Option User) : Int :=
  match referral with
  | none => 0
  | some r => r.trust_info.trust * 5 / 100

/- ---------------------------------------------------------------------
src/services/trust_service.py : signal collection
--------------------------------------------------------------------- -/

/-- Python truthiness of an optional string (empty string and None are falsy). -/
def truthyStr : Option String → Bool
  | none => false
  | some s => s ≠ ""

/-- Raw `counters` object of a vk `users.get` response (only the `friends`
field is read, via `counters.get("friends")`). -/
structure VkCounters where
  friends : Option Int
deriving DecidableEq, Repr, Inhabited

/-- Raw vk `users.get` response fields read by `calculate_profile_info`. -/
structure VkProfileData where
  verified : Option Int := none
  deactivated : Option String := none
  photo_200 : Option String := none
  counters : Option VkCounters := none
  is_closed : Option Bool := none
deriving DecidableEq, Repr, Inhabited

/-- Port of `TrustService.calculate_profile_info` (trust_service.py lines
74-105), returning (closed_profile, has_photo, has_friends, verified).
When the profile is not deactivated and `counters` is absent,
`counters.get("friends")` is an attribute access on None and the call raises,
modelled as `Except.error`. -/
def calculate_profile_info (user_data : VkProfileData) :
    Except Unit (Bool × Bool × Bool × Bool) :=
  let verified := user_data.verified == some 1
  if truthyStr user_data.deactivated then
    Except.ok (true, false, false, verified)
  else
    let has_photo :=
      match user_data.photo_200 with
      | some p =>
        if p ≠ "" then decide (p ≠ "https://vk.com/images/camera_200.png")
        else false
      | none => false
    match user_data.counters with
    | none => Except.error ()
    | some counters =>
      let has_friends :=
        match counters.friends with
        | some f => if f ≠ 0 then decide (f ≥ 15) else false
        | none => false
      let closed_profile := user_data.is_closed.getD true
      Except.ok (closed_profile, has_photo, has_friends, verified)

/-- Outcome of the `has_wall_posts` call (trust_service.py lines 107-109 and
144-147): a `vk_api.exceptions.ApiError` is caught by the caller and replaced
with False; any other exception propagates. -/
inductive WallPostsResult
  | ok (value : Bool)
  | apiError
  | otherError
deriving DecidableEq, Repr

/-- Outcome of the `get_reg_date` call (trust_service.py lines 111-126 and
180-183): a RuntimeError (http error / missing date) is caught by the caller
and replaced with None; any other exception (e.g. a network failure inside
`requests.get`) propagates. -/
inductive RegDateResult
  | ok (date : Int)
  | runtimeError
  | otherError
deriving DecidableEq, Repr

/-- Results of every external call performed by `get_trust_criteria`, one
field per call site, in source order. -/
structure SignalEnv where
  profile : Except Unit VkProfileData
  wall_posts : WallPostsResult
  joined_main : Except Unit Bool
  joined_test : Except Unit Bool
  month_old_comments : Except Unit Bool
  user_comments : Except Unit (List Rat)
  reg_date : RegDateResult
  is_sus : Except Unit Bool
deriving Repr

/-- The `try/except vk_api.exceptions.ApiError` wrapper around the
`has_wall_posts` call (trust_service.py lines 144-147): an ApiError is
replaced with False, any other exception propagates. -/
def wall_posts_value : WallPostsResult → Except Unit Bool
  | WallPostsResult.ok v => Except.ok v
  | WallPostsResult.apiError => Except.ok false
  | WallPostsResult.otherError => Except.error ()

/-- The `try/except RuntimeError` wrapper around the `get_reg_date` call
(trust_service.py lines 180-183): a RuntimeError is replaced with None, any
other exception propagates. -/
def reg_date_value : RegDateResult → Except Unit (Option Int)
  | RegDateResult.ok d => Except.ok (some d)
  | RegDateResult.runtimeError => Except.ok none
  | RegDateResult.otherError => Except.error ()

/-- The `try/except Exception` wrapper around the `is_sus` call
(trust_service.py lines 185-190): any failure is reported and replaced with
False. -/
def sus_value : Except Unit Bool → Bool
  | Except.ok v => v
  | Except.error _ => false

/-- Port of `TrustService.get_trust_criteria` (trust_service.py lines 136-212).
External-call failures that the source does not catch are propagated as
`Except.error`; the wall-posts ApiError, the reg-date RuntimeError and any
`is_sus` failure are substituted with False / None / False respectively, via
the wrapper helpers above. -/
def get_trust_criteria (isExpired : Violation → Bool) (env : SignalEnv)
    (user : User) : Except Unit TrustInfo :=
  match env.profile with
  | Except.error e => Except.error e
  | Except.ok user_vk =>
  match calculate_profile_info user_vk with
  | Except.error e => Except.error e
  | Except.ok (closed_profile, has_photo, has_friends, verified) =>
  match wall_posts_value env.wall_posts with
  | Except.error e => Except.error e
  | Except.ok has_wall_posts =>
  match env.joined_main with
  | Except.error e => Except.error e
  | Except.ok joined_main_group =>
  match env.joined_test with
  | Except.error e => Except.error e
  | Except.ok joined_test_group =>
  let donate := false
  let has_active_violation := user.has_active_violation
  let has_violation := has_active_violation
  let had_violation := has_active_violation
    || (!has_active_violation
        && user.violations.any (fun i => i.type == ViolationType.banned))
  let has_warning := User.has_warning isExpired user
  let had_warning := user.violations.any (fun i => i.type == ViolationType.warned)
  match env.month_old_comments with
  | Except.error e => Except.error e
  | Except.ok used_nng =>
  match env.user_comments with
  | Except.error e => Except.error e
  | Except.ok user_comments =>
  let toxicity : Rat :=
    if user_comments.isEmpty then 0
    else ((user_comments.map (fun i => i * 100)).sum / user_comments.length) / 100
  match reg_date_value env.reg_date with
  | Except.error e => Except.error e
  | Except.ok registration_date =>
  let odd_groups := sus_value env.is_sus
  Except.ok
    { trust := TRUST_START_COUNT
      toxicity := toxicity
      registration_date := registration_date
      nng_join_date := user.trust_info.nng_join_date
      odd_groups := odd_groups
      closed_profile := closed_profile
      has_photo := has_photo
      has_wall_posts := has_wall_posts
      has_friends := has_friends
      verified := verified
      joined_test_group := joined_test_group
      activism := user.trust_info.activism
      has_violation := has_violation
      had_violation := had_violation
      had_warning := had_warning
      has_warning := has_warning
      used_nng := used_nng
      joined_main_group := joined_main_group
      donate := donate }

/-- Scoring section of `TrustService.calculate_trust` (trust_service.py lines
317-348): operator overrides of verified/donate, then the additive formula,
then the clamp.  `referral` is the result of the referrer lookup performed by
`get_points_for_invite`.  Python truthiness on `user.invited_by` means a
referrer id of 0 contributes nothing. -/
def calculate_trust_score (today : Int) (user : User) (referral : Option User)
    (criteria0 : TrustInfo) : TrustInfo :=
  let criteria1 := if user.trust_info.verified then { criteria0 with verified := true } else criteria0
  let criteria := if user.trust_info.donate then { criteria1 with donate := true } else criteria1
  let invite_points : Int :=
    match user.invited_by with
    | some inv => if inv ≠ 0 then get_points_for_invite referral else 0
    | none => 0
  let total_trust := TRUST_START_COUNT
    + invite_points
    + get_points_for_reg today (criteria.registration_date.getD today)
    + get_points_for_joined today (criteria.nng_join_date.getD today)
    + get_points_for_vk_profile criteria
    + get_points_for_api_profile criteria
    + get_points_for_violation criteria
    + (if user.admin then 100 else 0)
    + (if criteria.used_nng then 3 else 0)
  { criteria with trust := clamp_trust total_trust }

/-- Port of `TrustService.calculate_trust` (trust_service.py lines 309-348).
`user` is the result of the `get_user` lookup (`none` when the user is
missing, in which case the RuntimeError is captured and re-raised: the
recomputation fails).  A failure inside `get_trust_criteria` is likewise
captured and re-raised, i.e. propagated. -/
def calculate_trust (isExpired : Violation → Bool) (today : Int)
    (env : SignalEnv) (user : Option User) (referral : Option User) :
    Except Unit TrustInfo :=
  match user with
  | none => Except.error ()
  | some user =>
    match get_trust_criteria isExpired env user with
    | Except.error e => Except.error e
    | Except.ok criteria =>
      Except.ok (calculate_trust_score today user referral criteria)

/- ---------------------------------------------------------------------
src/services/editor_service.py
--------------------------------------------------------------------- -/

/-- Editor history item: nng_sdk pydantic model; `date` in seconds since
epoch (`datetime.datetime`). -/
structure EditorHistoryItem where
  group_id : Int
  date : Int
  granted : Bool
  wip : Bool := false
deriving DecidableEq, Repr, Inhabited

/-- Editor history of a user: nng_sdk pydantic model (field `history`). -/
structure EditorHistory where
  history : List EditorHistoryItem
deriving DecidableEq, Repr, Inhabited

/-- Modelled from the spec: `EditorHistory.get_items_from_last_day` lives in
nng_sdk (not under src/).  Spec section 6 (`itemsFromLastDay`) together with
section 4.2 step 7 ("a non-granted attempt recorded within the last 24h"):
the items whose timestamp is within the last 24 hours. -/
def get_items_from_last_day (now : Int) (history : EditorHistory) :
    List EditorHistoryItem :=
  history.history.filter (fun i => now - i.date < 60 * 60 * 24)

/-- Port of `EditorService.OperationStatus` (editor_service.py lines 45-51). -/
inductive OperationStatus
  | join_group
  | success
  | fail
  | cooldown
deriving DecidableEq, Repr

/-- Port of `GiveEditorResponse` (editor_service.py lines 71-75). -/
structure GiveEditorResponse where
  status : OperationStatus
  argument : Option String := none
deriving DecidableEq, Repr

/-- Port of `EditorLogType` (editor_service.py lines 54-60). -/
inductive EditorLogType
  | editor_success
  | editor_fail_left_group
  | editor_fail
  | new_ban
deriving DecidableEq, Repr

/-- Port of `EditorLog` (editor_service.py lines 63-68). -/
structure EditorLog where
  user_id : Int
  log_type : EditorLogType
  group_id : Option Int := none
deriving DecidableEq, Repr

/-- Storage writes performed through `postgres.editor_history` and
`postgres.users` by the grant workflow, in execution order. -/
inductive StorageOp
  | setWip (user_id group_id : Int)
  | clearWip (user_id : Int)
  | addGranted (user_id group_id : Int)
  | addNonGranted (user_id group_id : Int)
  | clearNonGranted (user_id : Int)
  | updateUser (user : User)
deriving DecidableEq, Repr

/-- Result of `give_editor`: either a returned response together with the
storage writes performed, or an uncaught exception (`exc`) with the storage
writes performed before it was raised. -/
inductive GiveEditorResult
  | ok (resp : GiveEditorResponse) (ops : List StorageOp)
  | exc (ops : List StorageOp)
deriving DecidableEq, Repr

/-- Storage writes of a `GiveEditorResult`. -/
def GiveEditorResult.ops : GiveEditorResult → List StorageOp
  | GiveEditorResult.ok _ ops => ops
  | GiveEditorResult.exc ops => ops

/-- External state read by one `give_editor` call: the user lookup, the
editor-history lookup, the stored WIP flag, the group cache (in iteration
order, as (group_id, managers_count)), the vk membership check and whether
the `edit_manager` call raises. -/
structure EditorEnv where
  now : Int
  user : Option User
  history : Option EditorHistory
  is_wip : Bool
  groups_data : List (Int × Int)
  is_in_group : Int → Int → Bool
  edit_manager_fails : Int → Bool

/-- Port of `EditorService.choose_group` (editor_service.py lines 89-106):
among the cached groups the user is not already editor of, the first one with
the minimum managers_count (Python `sorted` is stable, so the head of the
sorted list is the first minimum in cache iteration order); `none` when no
candidate exists (`CannotChooseGroupError`). -/
def choose_group (groups_data : List (Int × Int)) (user : User) : Option Int :=
  let potential_groups := groups_data.filter (fun g => !user.groups.contains g.1)
  match potential_groups with
  | [] => none
  | g :: gs =>
    some (gs.foldl (fun best cand => if cand.2 < best.2 then cand else best) g).1

/-- Port of `EditorService.user_on_cooldown` (editor_service.py lines
108-129): True exactly when some granted history item is less than four hours
old; False when the user has no history row. -/
def user_on_cooldown (now : Int) (history : Option EditorHistory) : Bool :=
  match history with
  | none => false
  | some h => h.history.any (fun item => item.granted && decide (now - item.date < 60 * 60 * 4))

/-- Port of `EditorService.is_limited` (editor_service.py lines 131-134). -/
def is_limited (user : User) : Bool :=
  decide ((user.groups.length : Int) ≥ get_groups_restriction user.trust_info.trust)

/-- Port of `EditorService.give_editor` (editor_service.py lines 199-264).
The cache refresh `group_cache.update_group(target_group)` has no modelled
effect beyond the membership check that follows it.  When the history lookup
returns no row, `history.get_items_from_last_day()` is an attribute access on
None and the call raises (`exc`). -/
def give_editor (env : EditorEnv) (user_id : Int) : GiveEditorResult :=
  match env.user with
  | none => GiveEditorResult.ok ⟨OperationStatus.fail, some ("Не удалось подобрать группу 😢")⟩ []
  | some user =>
  if user.has_active_violation then
    GiveEditorResult.ok ⟨OperationStatus.fail, some ("Ты заблокирован 🐀")⟩ []
  else if user.trust_info.trust ≤ 10 then
    GiveEditorResult.ok ⟨OperationStatus.fail, some ("У тебя слишком низкий траст фактор 😖")⟩ []
  else if is_limited user then
    GiveEditorResult.ok ⟨OperationStatus.fail, some ("Ты достиг лимита групп 🤷‍♂️")⟩ []
  else if user_on_cooldown env.now env.history then
    GiveEditorResult.ok ⟨OperationStatus.cooldown, none⟩ []
  else if env.is_wip then
    GiveEditorResult.ok ⟨OperationStatus.fail, some ("Выдача уже производится, подожди, пожалуйста ⏳")⟩ []
  else
  match env.history with
  | none => GiveEditorResult.exc []
  | some history =>
  let non_granted_last_day :=
    (get_items_from_last_day env.now history).filter (fun i => !i.granted)
  let target0 : Int :=
    match non_granted_last_day with
    | [] => 0
    | i :: _ => i.group_id
  let chosen : Option Int :=
    if target0 = 0 then choose_group env.groups_data user else some target0
  match chosen with
  | none => GiveEditorResult.ok ⟨OperationStatus.fail, some ("Не удалось подобрать группу 🙁")⟩ []
  | some target_group =>
  let ops := [StorageOp.setWip user.user_id target_group]
  if env.is_in_group user.user_id target_group then
    if env.edit_manager_fails target_group then
      GiveEditorResult.exc ops
    else
      let user2 := { user with groups := user.groups ++ [target_group] }
      GiveEditorResult.ok ⟨OperationStatus.success, some (toString target_group)⟩
        (ops ++ [StorageOp.addGranted user.user_id target_group, StorageOp.updateUser user2])
  else
    GiveEditorResult.ok ⟨OperationStatus.join_group, some (toString target_group)⟩
      (ops ++ [StorageOp.addNonGranted user.user_id target_group])

/-- External state read by one `try_give_editor_and_update_history` call.
`is_in_group_after_sleep` is the membership check performed after the 2s
grace wait. -/
structure TryGiveEnv where
  now : Int
  user : Option User
  history : Option EditorHistory
  is_in_group_after_sleep : Int → Int → Bool
  edit_manager_fails : Bool

/-- Port of `EditorService.try_give_editor_and_update_history`
(editor_service.py lines 144-197), returning the storage writes and the
websocket logs it emits.  All early returns perform no further effects; the
`edit_manager` exception is caught, reported, and followed by a fail log and
a non-granted item. -/
def try_give_editor_and_update_history (env : TryGiveEnv)
    (user_id group_id : Int) : List StorageOp × List EditorLog :=
  match env.user with
  | none => ([], [])
  | some user =>
  if user.has_active_violation || !allowed_to_receive_editor user.trust_info.trust then
    ([StorageOp.clearNonGranted user.user_id], [])
  else
  match env.history with
  | none => ([], [])
  | some history =>
  if ((get_items_from_last_day env.now history).filter (fun i => !i.granted)).isEmpty then
    ([], [])
  else if !(history.history.filter (fun i => i.wip)).isEmpty then
    ([], [])
  else
  let ops := [StorageOp.setWip user_id group_id]
  if !env.is_in_group_after_sleep user_id group_id then
    (ops ++ [StorageOp.clearWip user_id],
     [⟨user_id, EditorLogType.editor_fail_left_group, some group_id⟩])
  else if env.edit_manager_fails then
    (ops ++ [StorageOp.addNonGranted user_id group_id],
     [⟨user_id, EditorLogType.editor_fail, none⟩])
  else
    (ops ++ [StorageOp.addGranted user_id group_id],
     [⟨user_id, EditorLogType.editor_success, some group_id⟩])

/- ---------------------------------------------------------------------
src/services/watchdog_service.py
--------------------------------------------------------------------- -/

/-- Watchdog log: nng_sdk pydantic model, fields used by src/. -/
structure Watchdog where
  watchdog_id : Int
  intruder : Option Int
  victim : Option Int
  group_id : Int
  priority : BanPriority
  date : Int
  reviewed : Bool
deriving DecidableEq, Repr, Inhabited

/-- Port of `WatchdogWebsocketLogType` (watchdog_service.py lines 42-46). -/
inductive WatchdogWebsocketLogType
  | new_warning
  | new_ban
deriving DecidableEq, Repr

/-- Port of `WatchdogService._is_valid_green` (watchdog_service.py lines
80-88).  `isExpired` is the SDK-computed, priority-dependent expiry check
(`Violation.is_expired`), taken as a parameter. -/
def _is_valid_green (isExpired : Violation → Bool) (violation : Violation) : Bool :=
  if violation.type ≠ ViolationType.warned ∨ violation.priority ≠ BanPriority.green then
    false
  else
    !isExpired violation

/-- Port of `WatchdogService.try_ban_as_green` (watchdog_service.py lines
117-137), returning the violation handed to `_ban_and_send_log` and the log
type that `_ban_and_send_log` broadcasts for it (new_ban for a banned
violation, new_warning otherwise; watchdog_service.py lines 98-103). -/
def try_ban_as_green (isExpired : Violation → Bool) (user : User)
    (watchdog_id group_id today : Int) : Violation × WatchdogWebsocketLogType :=
  let violation : Violation :=
    { type := ViolationType.warned
      group_id := group_id
      priority := BanPriority.green
      watchdog_ref := some watchdog_id
      date := today }
  if (user.violations.filter (_is_valid_green isExpired)).length < 2 then
    (violation, WatchdogWebsocketLogType.new_warning)
  else
    ({ violation with type := ViolationType.banned, active := true },
     WatchdogWebsocketLogType.new_ban)

/-- One green watchdog report processed end to end: `try_ban_as_green`
followed by `_ban_and_send_log`, whose `add_violation` appends the new
violation to the user's list.  Returns the updated user and the broadcast
log type. -/
def process_green_report (isExpired : Violation → Bool) (user : User)
    (watchdog_id group_id today : Int) : User × WatchdogWebsocketLogType :=
  let (violation, log_type) := try_ban_as_green isExpired user watchdog_id group_id today
  ({ user with violations := user.violations ++ [violation] }, log_type)

/-- Failure modes of `update_watchdog_log` (watchdog_service.py lines
203-243): missing log (`WatchdogNotFoundError`) or missing referenced user
(`UserNotFoundError` out of `check_and_throw_user`). -/
inductive WatchdogUpdateError
  | watchdogNotFound
  | userNotFound
deriving DecidableEq, Repr

/-- The `if group_id:` block of `update_watchdog_log` (watchdog_service.py
lines 224-225); a group_id of 0 is falsy and ignored. -/
def watchdog_apply_group (group_id : Option Int) (log : Watchdog) : Watchdog :=
  match group_id with
  | some g => if g ≠ 0 then { log with group_id := g } else log
  | none => log

/-- The `if intruder and log.intruder is None:` block of `update_watchdog_log`
(watchdog_service.py lines 227-230): only when a truthy intruder is supplied
and the stored intruder is unset does the log change and the needs_ban_task
flag go up; `check_and_throw_user` raises when the referenced user is
missing. -/
def watchdog_apply_intruder (user_exists : Int → Bool) (intruder : Option Int)
    (log : Watchdog) : Except WatchdogUpdateError (Watchdog × Bool) :=
  match intruder with
  | some i =>
    if i ≠ 0 ∧ log.intruder = none then
      if user_exists i then Except.ok ({ log with intruder := some i }, true)
      else Except.error WatchdogUpdateError.userNotFound
    else Except.ok (log, false)
  | none => Except.ok (log, false)

/-- The `if victim:` block of `update_watchdog_log` (watchdog_service.py
lines 232-234). -/
def watchdog_apply_victim (user_exists : Int → Bool) (victim : Option Int)
    (log : Watchdog) : Except WatchdogUpdateError Watchdog :=
  match victim with
  | some v =>
    if v ≠ 0 then
      if user_exists v then Except.ok { log with victim := some v }
      else Except.error WatchdogUpdateError.userNotFound
    else Except.ok log
  | none => Except.ok log

/-- The `if date:` block of `update_watchdog_log` (watchdog_service.py lines
236-237); a date object is always truthy. -/
def watchdog_apply_date (date : Option Int) (log : Watchdog) : Watchdog :=
  match date with
  | some d => { log with date := d }
  | none => log

/-- The `if reviewed:` block of `update_watchdog_log` (watchdog_service.py
lines 239-240); `reviewed=False` is falsy, so the flag can only be raised. -/
def watchdog_apply_reviewed (reviewed : Option Bool) (log : Watchdog) : Watchdog :=
  match reviewed with
  | some r => if r then { log with reviewed := true } else log
  | none => log

/-- Port of `WatchdogService.update_watchdog_log` (watchdog_service.py lines
203-243): returns the updated log and the `needs_ban_task` flag.  `stored` is
the `get_log` result, `user_exists` the `get_user` lookup behind
`check_and_throw_user`; the field blocks run in source order. -/
def update_watchdog_log (stored : Option Watchdog) (user_exists : Int → Bool)
    (intruder group_id victim : Option Int) (date : Option Int)
    (reviewed : Option Bool) : Except WatchdogUpdateError (Watchdog × Bool) :=
  match stored with
  | none => Except.error WatchdogUpdateError.watchdogNotFound
  | some log0 =>
  match watchdog_apply_intruder user_exists intruder (watchdog_apply_group group_id log0) with
  | Except.error e => Except.error e
  | Except.ok (log2, needs_ban_task) =>
  match watchdog_apply_victim user_exists victim log2 with
  | Except.error e => Except.error e
  | Except.ok log3 =>
  Except.ok (watchdog_apply_reviewed reviewed (watchdog_apply_date date log3), needs_ban_task)

/- ---------------------------------------------------------------------
src/services/ban_service.py
--------------------------------------------------------------------- -/

/-- Outcome of `BanService.fuck_manager` for one group when no exception
escapes it. -/
inductive GroupBanOutcome
  | banned
  | banFailedCaptured
  | revokeFailedAbandoned
  | revokedAndBanned
deriving DecidableEq, Repr

/-- External state read by one `ban_user_in_groups` call.
`recalc_trust_fails` stands for an exception propagating out of
`recalculate_trust` (trust recomputation aborts on uncaught signal-collection
failures); the per-group fields give the outcome of each vk call. -/
structure BanEnv where
  recalc_trust_fails : Bool
  user : Option User
  all_groups : List Int
  managers : Int → List Int
  get_managers_fails : Int → Bool
  edit_manager_fails : Int → Bool
  ban_in_group_fails : Int → Bool

/-- Port of `BanService.fuck_manager` (ban_service.py lines 30-49).  The
direct ban (user not a manager) is wrapped in try/except, so its failure is
captured; a failing `edit_manager` is captured and the ban for that group is
skipped; but the `ban_in_group` call in the `else` branch after a successful
`edit_manager` is NOT wrapped, so its exception (and any `get_all_managers`
exception) propagates. -/
def fuck_manager (env : BanEnv) (group_id user : Int) :
    Except Unit GroupBanOutcome :=
  if env.get_managers_fails group_id then Except.error ()
  else if !(env.managers group_id).contains user then
    if env.ban_in_group_fails group_id then Except.ok GroupBanOutcome.banFailedCaptured
    else Except.ok GroupBanOutcome.banned
  else if env.edit_manager_fails group_id then
    Except.ok GroupBanOutcome.revokeFailedAbandoned
  else if env.ban_in_group_fails group_id then Except.error ()
  else Except.ok GroupBanOutcome.revokedAndBanned

/-- The per-group loop of `ban_user_in_groups` (ban_service.py lines 61-62):
processes groups in order, stopping at the first uncaught exception.  Returns
the processed groups with their outcomes and whether the loop ran to
completion. -/
def ban_sweep (env : BanEnv) (user_id : Int) :
    List Int → List (Int × GroupBanOutcome) × Bool
  | [] => ([], true)
  | g :: gs =>
    match fuck_manager env g user_id with
    | Except.error _ => ([], false)
    | Except.ok o =>
      let (rest, completed) := ban_sweep env user_id gs
      ((g, o) :: rest, completed)

/-- Observable effects of one `ban_user_in_groups` call. -/
structure BanSweepResult where
  trust_recalculated : Bool
  groups_cleared : Bool
  processed : List (Int × GroupBanOutcome)
  completed : Bool
deriving DecidableEq, Repr

/-- Port of `BanService.ban_user_in_groups` (ban_service.py lines 51-62):
recompute trust (uncaught failure aborts the whole call), fetch the groups,
look the user up (uncaught failure likewise aborts), clear and persist the
user's local groups list, then run the best-effort-per-group sweep. -/
def ban_user_in_groups (env : BanEnv) (user_id : Int) : BanSweepResult :=
  if env.recalc_trust_fails then
    { trust_recalculated := false, groups_cleared := false, processed := [], completed := false }
  else
    match env.user with
    | none =>
      { trust_recalculated := true, groups_cleared := false, processed := [], completed := false }
    | some _ =>
      let (processed, completed) := ban_sweep env user_id env.all_groups
      { trust_recalculated := true, groups_cleared := true
        processed := processed, completed := completed }

/- ---------------------------------------------------------------------
Concurrency model for the WIP flag (claim C1)
--------------------------------------------------------------------- -/

/-- Outcome of the WIP check of one grant attempt. -/
inductive GrantAttemptOutcome
  | proceeded
  | blocked
deriving DecidableEq, Repr

/-- Atomic check-and-set region of both grant entry points.  In
`give_editor` (editor_service.py lines 225-247) and in
`try_give_editor_and_update_history` (lines 165-168) the WIP check and the
`set_wip` write are separated by no `await`, so on the single asyncio event
loop that runs both the request handlers and the background tasks the region
executes atomically: an attempt that observes the flag set is turned away,
an attempt that observes it clear sets it before any other attempt runs. -/
def wip_check_and_set (wip : Bool) : GrantAttemptOutcome × Bool :=
  if wip then (GrantAttemptOutcome.blocked, wip)
  else (GrantAttemptOutcome.proceeded, true)

/- ---------------------------------------------------------------------
Concrete instances used by the theorems below
--------------------------------------------------------------------- -/

/-- A signal environment in which every external call succeeds and every
signal is at its default: open-profile data absent, all memberships false,
no comments, registration 10 days ago (day numbers relative to `today` =
20000). -/
def quietSignals : SignalEnv :=
  { profile := Except.ok { counters := some ⟨none⟩, is_closed := some true }
    wall_posts := WallPostsResult.ok false
    joined_main := Except.ok false
    joined_test := Except.ok false
    month_old_comments := Except.ok false
    user_comments := Except.ok []
    reg_date := RegDateResult.ok (20000 - 10)
    is_sus := Except.ok false }

/-- The worked-example user of spec section 8: trust_info all defaults, not
invited, no violations, not admin, community join 10 days before `today` =
20000. -/
def exampleUser : User :=
  { user_id := 1
    trust_info := { trust := 0, nng_join_date := some (20000 - 10) } }

/-- An administrator user with no signals, used to exercise the upper clamp. -/
def adminUser : User :=
  { user_id := 2, admin := true, trust_info := { trust := 0 } }

/-- The trust info computed for `adminUser` in `quietSignals`. -/
def adminTrustInfo : TrustInfo :=
  (calculate_trust (fun _ => false) 20000 quietSignals (some adminUser) none).toOption.getD default

/-- A signal environment in which the wall-posts call raises
`vk_api.exceptions.ApiError`, the reg-date call raises RuntimeError and the
sus-store call raises, while every other call succeeds. -/
def failingSignals : SignalEnv :=
  { profile := Except.ok { counters := some ⟨none⟩, is_closed := some true }
    wall_posts := WallPostsResult.apiError
    joined_main := Except.ok false
    joined_test := Except.ok false
    month_old_comments := Except.ok false
    user_comments := Except.ok []
    reg_date := RegDateResult.runtimeError
    is_sus := Except.error () }

/-- The trust criteria computed for `exampleUser` in `failingSignals`. -/
def failingSignalsInfo : TrustInfo :=
  (get_trust_criteria (fun _ => false) failingSignals exampleUser).toOption.getD default

/-- A user with no violations, for the green-escalation runs. -/
def greenUser : User :=
  { user_id := 5, trust_info := { trust := 50 } }

/-- First green report against `greenUser`. -/
def greenStep1 : User × WatchdogWebsocketLogType :=
  process_green_report (fun _ => false) greenUser 100 7 20000

/-- Second green report against the user produced by `greenStep1`. -/
def greenStep2 : User × WatchdogWebsocketLogType :=
  process_green_report (fun _ => false) greenStep1.1 101 7 20000

/-- The green warned violation appended by a green report that does not
escalate: watchdog_service.py lines 122-128. -/
def green_warning (watchdog_id group_id today : Int) : Violation :=
  { type := ViolationType.warned
    group_id := group_id
    priority := BanPriority.green
    watchdog_ref := some watchdog_id
    date := today }

/-- A ban-sweep environment over five groups in which the user holds a
manager role only in group 3, role revocation succeeds everywhere, and the
ban call fails exactly in group 3 (i.e. the ban that follows the successful
revocation raises). -/
def banEnvGroup3 : BanEnv :=
  { recalc_trust_fails := false
    user := some greenUser
    all_groups := [1, 2, 3, 4, 5]
    managers := fun g => if g == 3 then [5] else []
    get_managers_fails := fun _ => false
    edit_manager_fails := fun _ => false
    ban_in_group_fails := fun g => g == 3 }

/-- A ban-sweep environment over three groups in which only captured
failures occur: the direct ban fails in group 1 (user not a manager there)
and role revocation fails in group 2 (user is a manager there). -/
def banEnvCaptured : BanEnv :=
  { recalc_trust_fails := false
    user := some greenUser
    all_groups := [1, 2, 3]
    managers := fun g => if g == 2 then [5] else []
    get_managers_fails := fun _ => false
    edit_manager_fails := fun g => g == 2
    ban_in_group_fails := fun g => g == 1 }

/-- A violation-free user with trust 50, eligible for editor grants. -/
def editorUser50 : User :=
  { user_id := 9, trust_info := { trust := 50 } }

/-- An editor environment in which every guard ahead of the history
dereference passes and the history lookup returns no row. -/
def noHistoryEnv : EditorEnv :=
  { now := 100000
    user := some editorUser50
    history := none
    is_wip := false
    groups_data := [(11, 2), (12, 1)]
    is_in_group := fun _ _ => true
    edit_manager_fails := fun _ => false }

/-- An editor environment in which every guard ahead of the WIP check passes
and the WIP flag is already held. -/
def wipHeldEnv : EditorEnv :=
  { now := 100000
    user := some editorUser50
    history := some ⟨[]⟩
    is_wip := true
    groups_data := [(11, 2), (12, 1)]
    is_in_group := fun _ _ => true
    edit_manager_fails := fun _ => false }

/-- An editor environment in which every guard passes, the user holds no
groups and is a member of the target group, so the grant succeeds. -/
def successEnv : EditorEnv :=
  { now := 100000
    user := some editorUser50
    history := some ⟨[]⟩
    is_wip := false
    groups_data := [(11, 2), (12, 1)]
    is_in_group := fun _ _ => true
    edit_manager_fails := fun _ => false }

/-- A user with trust 15 (group limit 1) who already holds one group. -/
def limitedUser : User :=
  { user_id := 8, trust_info := { trust := 15 }, groups := [11] }

/-- An editor environment whose user has reached the group limit. -/
def limitedEnv : EditorEnv :=
  { now := 0
    user := some limitedUser
    history := some ⟨[]⟩
    is_wip := false
    groups_data := []
    is_in_group := fun _ _ => false
    edit_manager_fails := fun _ => false }

/-- An editor history holding one granted item four hours and one second
old at time 100000 (so the cooldown has just lapsed). -/
def lapsedHistory : EditorHistory :=
  ⟨[{ group_id := 11, date := 100000 - (60 * 60 * 4 + 1), granted := true }]⟩

/-- An editor environment whose history holds a granted item issued one hour
before `now`, putting the user on cooldown. -/
def cooldownEnv : EditorEnv :=
  { now := 100000
    user := some editorUser50
    history := some ⟨[{ group_id := 11, date := 100000 - 60 * 60, granted := true }]⟩
    is_wip := false
    groups_data := [(11, 2), (12, 1)]
    is_in_group := fun _ _ => true
    edit_manager_fails := fun _ => false }

/-- A stored watchdog log whose intruder is already attributed. -/
def attributedLog : Watchdog :=
  { watchdog_id := 40
    intruder := some 9
    victim := none
    group_id := 11
    priority := BanPriority.teal
    date := 20000
    reviewed := false }

/- ---------------------------------------------------------------------
Theorems
--------------------------------------------------------------------- -/

/-- C7: for a user whose trust_info signals are all false/default (closed
profile true, all bonuses false), not invited, account registration age 10
days, community join tenure 10 days, no violations, not an admin,
`calculate_trust` returns a final trust of exactly 3 (base 20, minus 10 for
registration age, plus 0 for tenure, minus 7 for closed profile). -/
theorem c7_worked_trust_example :
    (calculate_trust (fun _ => false) 20000 quietSignals (some exampleUser) none).map
      TrustInfo.trust = Except.ok 3 := by
  rfl

/-- Helper: `clamp_trust` always lands in [0, 100]. -/
theorem clamp_trust_range (n : Int) : 0 ≤ clamp_trust n ∧ clamp_trust n ≤ 100 := by
  unfold clamp_trust
  split_ifs <;> omega

/-- C8: for every combination of input signals (including combinations whose
unclamped additive sum is negative or greater than 100), any trust value
returned by `calculate_trust` lies in [0, 100], because the final sum passes
through `clamp_trust`. -/
theorem c8_trust_always_in_range (isExpired : Violation → Bool) (today : Int)
    (env : SignalEnv) (user referral : Option User) (t : TrustInfo)
    (h : calculate_trust isExpired today env user referral = Except.ok t) :
    0 ≤ t.trust ∧ t.trust ≤ 100 := by
  cases user with
  | none => simp [calculate_trust] at h
  | some u =>
    simp only [calculate_trust] at h
    cases hg : get_trust_criteria isExpired env u with
    | error e => rw [hg] at h; simp at h
    | ok c =>
      rw [hg] at h
      simp only [Except.ok.injEq] at h
      subst h
      unfold calculate_trust_score
      simp only
      exact clamp_trust_range _

/-- C8 witness: the range theorem applied to an administrator whose
unclamped sum exceeds 100. -/
theorem c8_witness : 0 ≤ adminTrustInfo.trust ∧ adminTrustInfo.trust ≤ 100 :=
  c8_trust_always_in_range (fun _ => false) 20000 quietSignals (some adminUser)
    none adminTrustInfo (by rfl)

/-- C2 counterexample: a user with zero prior green warnings who receives two
green watchdog reports ends up with two green warned violations and no ban;
the second report broadcasts new_warning, not new_ban, because the escalation
threshold requires two already-recorded valid warnings. -/
theorem c2_counterexample :
    greenStep1.2 = WatchdogWebsocketLogType.new_warning ∧
    greenStep2.2 = WatchdogWebsocketLogType.new_warning ∧
    greenStep2.2 ≠ WatchdogWebsocketLogType.new_ban ∧
    greenStep2.1.violations.map Violation.type
      = [ViolationType.warned, ViolationType.warned] ∧
    greenStep2.1.violations.all (fun v => !v.active) = true := by
  refine ⟨rfl, rfl, by decide, rfl, rfl⟩

/-- C2 amended: for a user with zero prior violations, the first two green
reports each append a non-banning green warned violation and broadcast
new_warning; the third report (with the two recorded warnings still
non-expired) appends an active banned green violation and broadcasts
new_ban. -/
theorem c2_amended_green_escalation (isExpired : Violation → Bool) (user : User)
    (wid1 wid2 wid3 gid t1 t2 t3 : Int)
    (h0 : user.violations = [])
    (hv1 : isExpired (green_warning wid1 gid t1) = false)
    (hv2 : isExpired (green_warning wid2 gid t2) = false) :
    (process_green_report isExpired user wid1 gid t1).2
      = WatchdogWebsocketLogType.new_warning ∧
    (process_green_report isExpired user wid1 gid t1).1.violations
      = [green_warning wid1 gid t1] ∧
    (process_green_report isExpired
      (process_green_report isExpired user wid1 gid t1).1 wid2 gid t2).2
      = WatchdogWebsocketLogType.new_warning ∧
    (process_green_report isExpired
      (process_green_report isExpired user wid1 gid t1).1 wid2 gid t2).1.violations
      = [green_warning wid1 gid t1, green_warning wid2 gid t2] ∧
    (process_green_report isExpired
      (process_green_report isExpired
        (process_green_report isExpired user wid1 gid t1).1 wid2 gid t2).1
      wid3 gid t3).2
      = WatchdogWebsocketLogType.new_ban ∧
    (process_green_report isExpired
      (process_green_report isExpired
        (process_green_report isExpired user wid1 gid t1).1 wid2 gid t2).1
      wid3 gid t3).1.violations
      = [green_warning wid1 gid t1, green_warning wid2 gid t2,
         { green_warning wid3 gid t3 with
            type := ViolationType.banned, active := true }] := by
  have hv1x := hv1
  have hv2x := hv2
  simp only [green_warning] at hv1x hv2x
  have hval1 : _is_valid_green isExpired
      { type := ViolationType.warned, group_id := gid, priority := BanPriority.green,
        date := t1, active := false, watchdog_ref := some wid1 } = true := by
    simp [_is_valid_green, hv1x]
  have hval2 : _is_valid_green isExpired
      { type := ViolationType.warned, group_id := gid, priority := BanPriority.green,
        date := t2, active := false, watchdog_ref := some wid2 } = true := by
    simp [_is_valid_green, hv2x]
  have s1 : process_green_report isExpired user wid1 gid t1
      = ({ user with violations := [green_warning wid1 gid t1] },
         WatchdogWebsocketLogType.new_warning) := by
    simp [process_green_report, try_ban_as_green, h0, green_warning]
  have s2 : process_green_report isExpired
        ({ user with violations := [green_warning wid1 gid t1] }) wid2 gid t2
      = ({ user with violations := [green_warning wid1 gid t1, green_warning wid2 gid t2] },
         WatchdogWebsocketLogType.new_warning) := by
    simp [process_green_report, try_ban_as_green, List.filter, hval1, green_warning]
  have s3 : process_green_report isExpired
        ({ user with violations := [green_warning wid1 gid t1, green_warning wid2 gid t2] })
        wid3 gid t3
      = ({ user with violations := [green_warning wid1 gid t1, green_warning wid2 gid t2,
            { green_warning wid3 gid t3 with
               type := ViolationType.banned, active := true }] },
         WatchdogWebsocketLogType.new_ban) := by
    simp [process_green_report, try_ban_as_green, List.filter, hval1, hval2, green_warning]
  rw [s1, s2, s3]
  exact ⟨rfl, rfl, rfl, rfl, rfl, rfl⟩

/-- C2 amended witness: the three-report escalation at concrete inputs. -/
theorem c2_amended_witness :
    (process_green_report (fun _ => false) greenUser 100 7 20000).2
      = WatchdogWebsocketLogType.new_warning ∧
    (process_green_report (fun _ => false) greenUser 100 7 20000).1.violations
      = [green_warning 100 7 20000] ∧
    (process_green_report (fun _ => false)
      (process_green_report (fun _ => false) greenUser 100 7 20000).1 101 7 20000).2
      = WatchdogWebsocketLogType.new_warning ∧
    (process_green_report (fun _ => false)
      (process_green_report (fun _ => false) greenUser 100 7 20000).1 101 7 20000).1.violations
      = [green_warning 100 7 20000, green_warning 101 7 20000] ∧
    (process_green_report (fun _ => false)
      (process_green_report (fun _ => false)
        (process_green_report (fun _ => false) greenUser 100 7 20000).1 101 7 20000).1
      102 7 20000).2
      = WatchdogWebsocketLogType.new_ban ∧
    (process_green_report (fun _ => false)
      (process_green_report (fun _ => false)
        (process_green_report (fun _ => false) greenUser 100 7 20000).1 101 7 20000).1
      102 7 20000).1.violations
      = [green_warning 100 7 20000, green_warning 101 7 20000,
         { green_warning 102 7 20000 with
            type := ViolationType.banned, active := true }] :=
  c2_amended_green_escalation (fun _ => false) greenUser 100 101 102 7 20000 20000 20000
    rfl rfl rfl

/-- C3 counterexample: with the wall-posts call failing with ApiError, the
reg-date call failing with RuntimeError and the sus-store call failing, the
trust recomputation does not abort: it completes, silently substituting
False / None / False for the failed signals, and produces a trust value. -/
theorem c3_counterexample :
    (get_trust_criteria (fun _ => false) failingSignals exampleUser).map
        (fun t => (t.has_wall_posts, t.registration_date, t.odd_groups))
      = Except.ok (false, none, false) ∧
    (calculate_trust (fun _ => false) 20000 failingSignals (some exampleUser) none).map
        TrustInfo.trust = Except.ok 3 := by
  exact ⟨rfl, rfl⟩

/-- C3 amended: a failure of the profile-info call, the group-membership
calls, the comment queries, a non-ApiError wall-posts failure or a
non-RuntimeError reg-date failure aborts the trust recomputation (no ok
result is possible); but a wall-posts ApiError is silently substituted with
False, a reg-date RuntimeError with None, and a sus-store failure with
False, and the recomputation completes on that partial data. -/
theorem c3_amended_signal_failures (isExpired : Violation → Bool)
    (env : SignalEnv) (user : User) (t : TrustInfo)
    (h : get_trust_criteria isExpired env user = Except.ok t) :
    env.profile ≠ Except.error () ∧
    env.wall_posts ≠ WallPostsResult.otherError ∧
    env.joined_main ≠ Except.error () ∧
    env.joined_test ≠ Except.error () ∧
    env.month_old_comments ≠ Except.error () ∧
    env.user_comments ≠ Except.error () ∧
    env.reg_date ≠ RegDateResult.otherError ∧
    (env.wall_posts = WallPostsResult.apiError → t.has_wall_posts = false) ∧
    (env.reg_date = RegDateResult.runtimeError → t.registration_date = none) ∧
    (env.is_sus = Except.error () → t.odd_groups = false) := by
  cases hp : env.profile with
  | error e => cases e; simp [get_trust_criteria, hp] at h
  | ok user_vk =>
  cases hcp : calculate_profile_info user_vk with
  | error e => simp [get_trust_criteria, hp, hcp] at h
  | ok quad =>
  obtain ⟨closed_profile, has_photo, has_friends, verified⟩ := quad
  cases hw : wall_posts_value env.wall_posts with
  | error e => simp [get_trust_criteria, hp, hcp, hw] at h
  | ok has_wall_posts =>
  cases hjm : env.joined_main with
  | error e => cases e; simp [get_trust_criteria, hp, hcp, hw, hjm] at h
  | ok joined_main_group =>
  cases hjt : env.joined_test with
  | error e => cases e; simp [get_trust_criteria, hp, hcp, hw, hjm, hjt] at h
  | ok joined_test_group =>
  cases hmc : env.month_old_comments with
  | error e => cases e; simp [get_trust_criteria, hp, hcp, hw, hjm, hjt, hmc] at h
  | ok used_nng =>
  cases huc : env.user_comments with
  | error e => cases e; simp [get_trust_criteria, hp, hcp, hw, hjm, hjt, hmc, huc] at h
  | ok user_comments =>
  cases hrd : reg_date_value env.reg_date with
  | error e => simp [get_trust_criteria, hp, hcp, hw, hjm, hjt, hmc, huc, hrd] at h
  | ok registration_date =>
  simp only [get_trust_criteria, hp, hcp, hw, hjm, hjt, hmc, huc, hrd,
    Except.ok.injEq] at h
  subst h
  refine ⟨by simp [hp], ?_, by simp [hjm], by simp [hjt], by simp [hmc],
    by simp [huc], ?_, ?_, ?_, ?_⟩
  · intro hcon
    rw [hcon] at hw
    simp [wall_posts_value] at hw
  · intro hcon
    rw [hcon] at hrd
    simp [reg_date_value] at hrd
  · intro hapi
    rw [hapi] at hw
    simp only [wall_posts_value, Except.ok.injEq] at hw
    simp [← hw]
  · intro hrt
    rw [hrt] at hrd
    simp only [reg_date_value, Except.ok.injEq] at hrd
    simp [← hrd]
  · intro hs
    simp [hs, sus_value]

/-- C3 amended witness: in `failingSignals` (wall-posts ApiError, reg-date
RuntimeError, sus-store failure) the recomputation completes and the three
substitutions are observable. -/
theorem c3_amended_witness :
    failingSignals.profile ≠ Except.error () ∧
    failingSignals.wall_posts ≠ WallPostsResult.otherError ∧
    failingSignals.joined_main ≠ Except.error () ∧
    failingSignals.joined_test ≠ Except.error () ∧
    failingSignals.month_old_comments ≠ Except.error () ∧
    failingSignals.user_comments ≠ Except.error () ∧
    failingSignals.reg_date ≠ RegDateResult.otherError ∧
    (failingSignals.wall_posts = WallPostsResult.apiError →
      failingSignalsInfo.has_wall_posts = false) ∧
    (failingSignals.reg_date = RegDateResult.runtimeError →
      failingSignalsInfo.registration_date = none) ∧
    (failingSignals.is_sus = Except.error () →
      failingSignalsInfo.odd_groups = false) :=
  c3_amended_signal_failures (fun _ => false) failingSignals exampleUser
    failingSignalsInfo (by rfl)

/-- C4 counterexample: in `banEnvGroup3` the ban call that follows the
successful role revocation in group 3 raises, the exception propagates, and
groups 4 and 5 are never processed; and when the initial trust recomputation
fails, the user's local groups list is not cleared.  Both refute the claim
that every external failure is captured and that the groups list is cleared
regardless of any external failure. -/
theorem c4_counterexample :
    (ban_user_in_groups banEnvGroup3 5).processed.map Prod.fst = [1, 2] ∧
    (ban_user_in_groups banEnvGroup3 5).completed = false ∧
    (ban_user_in_groups { banEnvGroup3 with recalc_trust_fails := true } 5).groups_cleared
      = false := by
  refine ⟨rfl, rfl, rfl⟩

/-- Helper: `fuck_manager` raises no exception when the manager-list fetch
succeeds and the group is not in the revoke-succeeded-then-ban-fails
configuration. -/
theorem fuck_manager_no_exc (env : BanEnv) (g uid : Int)
    (hm : env.get_managers_fails g = false)
    (hb : ¬((env.managers g).contains uid = true ∧
        env.edit_manager_fails g = false ∧ env.ban_in_group_fails g = true)) :
    fuck_manager env g uid ≠ Except.error () := by
  unfold fuck_manager
  cases hc : (env.managers g).contains uid <;>
    cases he : env.edit_manager_fails g <;>
      cases hbf : env.ban_in_group_fails g <;>
        simp_all

/-- Helper: when no group raises, the sweep runs to completion and processes
every group in order. -/
theorem ban_sweep_total (env : BanEnv) (uid : Int) (l : List Int)
    (h : ∀ g ∈ l, fuck_manager env g uid ≠ Except.error ()) :
    (ban_sweep env uid l).2 = true ∧ (ban_sweep env uid l).1.map Prod.fst = l := by
  induction l with
  | nil => simp [ban_sweep]
  | cons g gs ih =>
    have hg := h g (by simp)
    cases hf : fuck_manager env g uid with
    | error e => cases e; exact absurd hf hg
    | ok o =>
      obtain ⟨ih1, ih2⟩ := ih (fun x hx => h x (by simp [hx]))
      simp [ban_sweep, hf, ih1, ih2]

/-- C4 amended: provided the initial trust recomputation and the user lookup
succeed, the local groups list is cleared and persisted no matter how the
per-group external calls fare; and as long as no group hits the one uncaught
path (role revocation succeeds and the subsequent ban call fails) or a
manager-list fetch failure, every group is processed — captured failures
(failed direct ban, failed role revocation) never stop the sweep. -/
theorem c4_amended_ban_sweep (env : BanEnv) (user_id : Int) (u : User)
    (hr : env.recalc_trust_fails = false) (hu : env.user = some u) :
    (ban_user_in_groups env user_id).groups_cleared = true ∧
    ((∀ g ∈ env.all_groups, env.get_managers_fails g = false ∧
        ¬((env.managers g).contains user_id = true ∧
          env.edit_manager_fails g = false ∧ env.ban_in_group_fails g = true)) →
      (ban_user_in_groups env user_id).completed = true ∧
      (ban_user_in_groups env user_id).processed.map Prod.fst = env.all_groups) := by
  unfold ban_user_in_groups
  rw [hr, hu]
  constructor
  · simp
  · intro hall
    have htot := ban_sweep_total env user_id env.all_groups
      (fun g hg => fuck_manager_no_exc env g user_id (hall g hg).1 (hall g hg).2)
    simpa using htot

/-- C4 amended witness: in `banEnvCaptured` (direct ban fails in group 1,
role revocation fails in group 2) all three groups are processed and the
groups list is cleared. -/
theorem c4_amended_witness :
    (ban_user_in_groups banEnvCaptured 5).groups_cleared = true ∧
    (ban_user_in_groups banEnvCaptured 5).completed = true ∧
    (ban_user_in_groups banEnvCaptured 5).processed.map Prod.fst = [1, 2, 3] := by
  have h := c4_amended_ban_sweep banEnvCaptured 5 greenUser rfl rfl
  have h2 := h.2 (by decide)
  exact ⟨h.1, h2.1, h2.2⟩

/-- Helper: the group_id block never touches the intruder field. -/
theorem watchdog_apply_group_intruder (group_id : Option Int) (log : Watchdog) :
    (watchdog_apply_group group_id log).intruder = log.intruder := by
  unfold watchdog_apply_group
  cases group_id with
  | none => rfl
  | some g => by_cases hg : g ≠ 0 <;> simp [hg]

/-- Helper: the victim block never touches the intruder field. -/
theorem watchdog_apply_victim_intruder (user_exists : Int → Bool)
    (victim : Option Int) (log log3 : Watchdog)
    (h : watchdog_apply_victim user_exists victim log = Except.ok log3) :
    log3.intruder = log.intruder := by
  unfold watchdog_apply_victim at h
  split at h
  · split at h
    · split at h
      · simp only [Except.ok.injEq] at h
        rw [← h]
      · simp at h
    · simp only [Except.ok.injEq] at h
      rw [← h]
  · simp only [Except.ok.injEq] at h
    rw [← h]

/-- Helper: the date block never touches the intruder field. -/
theorem watchdog_apply_date_intruder (date : Option Int) (log : Watchdog) :
    (watchdog_apply_date date log).intruder = log.intruder := by
  unfold watchdog_apply_date
  cases date <;> rfl

/-- Helper: the reviewed block never touches the intruder field. -/
theorem watchdog_apply_reviewed_intruder (reviewed : Option Bool) (log : Watchdog) :
    (watchdog_apply_reviewed reviewed log).intruder = log.intruder := by
  unfold watchdog_apply_reviewed
  cases reviewed with
  | none => rfl
  | some r => cases r <;> simp

/-- C9: `update_watchdog_log` signals a ban task (needs_ban_task = true) only
when the stored log's intruder is unset and a (truthy) intruder argument is
supplied; and an update naming an intruder on a log whose intruder is already
set leaves the field untouched and signals no ban task. -/
theorem c9_escalation_edge_trigger :
    (∀ (stored : Option Watchdog) (user_exists : Int → Bool)
        (intruder group_id victim : Option Int) (date : Option Int)
        (reviewed : Option Bool) (log : Watchdog) (nb : Bool),
      update_watchdog_log stored user_exists intruder group_id victim date reviewed
          = Except.ok (log, nb) → nb = true →
      ∃ log0 i, stored = some log0 ∧ log0.intruder = none ∧
        intruder = some i ∧ i ≠ 0) ∧
    (∀ (stored : Option Watchdog) (log0 : Watchdog) (i : Int)
        (user_exists : Int → Bool) (intruder group_id victim : Option Int)
        (date : Option Int) (reviewed : Option Bool) (log : Watchdog) (nb : Bool),
      stored = some log0 → log0.intruder = some i →
      update_watchdog_log stored user_exists intruder group_id victim date reviewed
          = Except.ok (log, nb) →
      log.intruder = some i ∧ nb = false) := by
  constructor
  · intro stored user_exists intruder group_id victim date reviewed log nb h hnb
    subst hnb
    cases stored with
    | none => simp [update_watchdog_log] at h
    | some log0 =>
      refine ⟨log0, ?_⟩
      cases hi : watchdog_apply_intruder user_exists intruder (watchdog_apply_group group_id log0) with
      | error e => simp [update_watchdog_log, hi] at h
      | ok p =>
        obtain ⟨log2, nbt⟩ := p
        cases hv : watchdog_apply_victim user_exists victim log2 with
        | error e => simp [update_watchdog_log, hi, hv] at h
        | ok log3 =>
          simp only [update_watchdog_log, hi, hv, Except.ok.injEq, Prod.mk.injEq] at h
          obtain ⟨-, hnbt⟩ := h
          subst hnbt
          unfold watchdog_apply_intruder at hi
          split at hi
          · rename_i i
            refine ⟨i, rfl, ?_⟩
            split at hi
            · rename_i hcond
              have h0 : log0.intruder = none := by
                rw [← watchdog_apply_group_intruder group_id log0]
                exact hcond.2
              exact ⟨h0, rfl, hcond.1⟩
            · simp at hi
          · simp at hi
  · intro stored log0 i user_exists intruder group_id victim date reviewed log nb hst hintr h
    subst hst
    have hg : (watchdog_apply_group group_id log0).intruder = some i := by
      rw [watchdog_apply_group_intruder, hintr]
    have hi : watchdog_apply_intruder user_exists intruder (watchdog_apply_group group_id log0)
        = Except.ok (watchdog_apply_group group_id log0, false) := by
      cases intruder with
      | none => rfl
      | some j =>
        have hcond : ¬(j ≠ 0 ∧ (watchdog_apply_group group_id log0).intruder = none) := by
          rintro ⟨-, hnone⟩
          rw [hg] at hnone
          exact Option.noConfusion hnone
        simp [watchdog_apply_intruder, hcond]
    cases hv : watchdog_apply_victim user_exists victim (watchdog_apply_group group_id log0) with
    | error e => simp [update_watchdog_log, hi, hv] at h
    | ok log3 =>
      simp only [update_watchdog_log, hi, hv, Except.ok.injEq, Prod.mk.injEq] at h
      obtain ⟨hlog, hnb⟩ := h
      constructor
      · rw [← hlog, watchdog_apply_reviewed_intruder, watchdog_apply_date_intruder,
          watchdog_apply_victim_intruder user_exists victim _ log3 hv, hg]
      · exact hnb.symm

/-- C9 witness: a second update naming intruder 13 on `attributedLog` (whose
intruder is already 9) leaves the field at 9 and signals no ban task. -/
theorem c9_witness : attributedLog.intruder = some 9 ∧ false = false :=
  c9_escalation_edge_trigger.2 (some attributedLog) attributedLog 9 (fun _ => true)
    (some 13) none none none none attributedLog false rfl rfl (by rfl)

/-- Helper: after appending one group to a user below the limit, the user's
group count is at most the limit for their (unchanged) trust. -/
theorem limit_after_append (u : User) (tg : Int) (hl : is_limited u = false) :
    ((({ u with groups := u.groups ++ [tg] } : User).groups.length : Int)
      ≤ get_groups_restriction ({ u with groups := u.groups ++ [tg] } : User).trust_info.trust) := by
  simp only [is_limited, ge_iff_le, decide_eq_false_iff_not, not_le] at hl
  simp only [List.length_append, List.length_singleton]
  push_cast
  omega

/-- Helper: any user record persisted by `give_editor` respects the
trust-derived group limit. -/
theorem give_editor_updateUser_bound (env : EditorEnv) (user_id : Int)
    (resp : GiveEditorResponse) (ops : List StorageOp) (u2 : User)
    (heq : give_editor env user_id = GiveEditorResult.ok resp ops)
    (h : StorageOp.updateUser u2 ∈ ops) :
    (u2.groups.length : Int) ≤ get_groups_restriction u2.trust_info.trust := by
  unfold give_editor at heq
  repeat' split at heq
  all_goals simp_all [GiveEditorResult.ok.injEq]
  all_goals (repeat' split at heq)
  all_goals simp_all [GiveEditorResult.ok.injEq]
  · obtain ⟨-, hops⟩ := heq
    subst hops
    simp only [List.mem_cons, List.not_mem_nil, or_false] at h
    rcases h with h | h | h
    · simp at h
    · simp at h
    · injection h with h
      subst h
      exact limit_after_append _ _ (by assumption)
  · obtain ⟨-, hops⟩ := heq
    subst hops
    simp at h

set_option maxHeartbeats 1600000 in
/-- C5: the group-limit invariant of the synchronous grant path: the limit is
the step function trust≤10→0, ≤20→1, ≤30→3, ≤40→5, ≤50→10, ≤60→15, ≤70→20,
≤80→25, else 30; `is_limited` holds exactly when the group count has reached
it; a user at the limit is turned away with the limit-reached failure;
any user record persisted by `give_editor` has at most `limit(trust)` groups;
the limit is monotone in trust; and lowering trust to a tier whose limit is
at most the current group count makes `is_limited` hold on the next check. -/
theorem c5_group_limit_law :
    (∀ t : Int,
      (t ≤ 10 → get_groups_restriction t = 0) ∧
      (10 < t → t ≤ 20 → get_groups_restriction t = 1) ∧
      (20 < t → t ≤ 30 → get_groups_restriction t = 3) ∧
      (30 < t → t ≤ 40 → get_groups_restriction t = 5) ∧
      (40 < t → t ≤ 50 → get_groups_restriction t = 10) ∧
      (50 < t → t ≤ 60 → get_groups_restriction t = 15) ∧
      (60 < t → t ≤ 70 → get_groups_restriction t = 20) ∧
      (70 < t → t ≤ 80 → get_groups_restriction t = 25) ∧
      (80 < t → get_groups_restriction t = 30)) ∧
    (∀ u : User, is_limited u = false ↔
      (u.groups.length : Int) < get_groups_restriction u.trust_info.trust) ∧
    (∀ (env : EditorEnv) (user_id : Int) (u : User),
      env.user = some u → u.has_active_violation = false →
      10 < u.trust_info.trust → is_limited u = true →
      give_editor env user_id = GiveEditorResult.ok
        ⟨OperationStatus.fail, some ("Ты достиг лимита групп 🤷‍♂️")⟩ []) ∧
    (∀ (env : EditorEnv) (user_id : Int) (resp : GiveEditorResponse)
        (ops : List StorageOp) (u2 : User),
      give_editor env user_id = GiveEditorResult.ok resp ops →
      StorageOp.updateUser u2 ∈ ops →
      (u2.groups.length : Int) ≤ get_groups_restriction u2.trust_info.trust) ∧
    (∀ t1 t2 : Int, t1 ≤ t2 →
      get_groups_restriction t1 ≤ get_groups_restriction t2) ∧
    (∀ (u : User) (t2 : Int),
      get_groups_restriction t2 ≤ (u.groups.length : Int) →
      is_limited { u with trust_info := { u.trust_info with trust := t2 } } = true) := by
  refine ⟨?_, ?_, ?_, ?_, ?_, ?_⟩
  · intro t
    refine ⟨?_, ?_, ?_, ?_, ?_, ?_, ?_, ?_, ?_⟩ <;>
      (intros; unfold get_groups_restriction; split_ifs <;> omega)
  · intro u
    simp [is_limited]
  · intro env user_id u hu hban htrust hlim
    simp only [give_editor, hu, hban, Bool.false_eq_true, if_false]
    rw [if_neg (by omega : ¬(u.trust_info.trust ≤ 10))]
    simp [hlim]
  · exact give_editor_updateUser_bound
  · intro t1 t2 h
    unfold get_groups_restriction
    split_ifs <;> omega
  · intro u t2 h
    simp only [is_limited, ge_iff_le, decide_eq_true_eq]
    exact h

/-- C5 witness: the limit facts instantiated at concrete inputs: trust 25
gives limit 3; `limitedEnv`'s user (trust 15, one group) is turned away with
the limit failure; the user persisted by the successful grant in
`successEnv` holds 1 ≤ 10 groups; the limit is monotone from 15 to 45; and
dropping `limitedUser`'s trust to 5 keeps them limited. -/
theorem c5_witness :
    get_groups_restriction 25 = 3 ∧
    give_editor limitedEnv 8 = GiveEditorResult.ok
      ⟨OperationStatus.fail, some ("Ты достиг лимита групп 🤷‍♂️")⟩ [] ∧
    ((({ editorUser50 with groups := [12] } : User).groups.length : Int)
      ≤ get_groups_restriction ({ editorUser50 with groups := [12] } : User).trust_info.trust) ∧
    get_groups_restriction 15 ≤ get_groups_restriction 45 ∧
    is_limited { limitedUser with trust_info := { limitedUser.trust_info with trust := 5 } } = true :=
  ⟨(c5_group_limit_law.1 25).2.2.1 (by norm_num) (by norm_num),
   c5_group_limit_law.2.2.1 limitedEnv 8 limitedUser rfl rfl (by norm_num [limitedUser]) rfl,
   c5_group_limit_law.2.2.2.1 successEnv 9
     ⟨OperationStatus.success, some ("12")⟩
     [StorageOp.setWip 9 12, StorageOp.addGranted 9 12,
      StorageOp.updateUser { editorUser50 with groups := [12] }]
     { editorUser50 with groups := [12] } (by rfl) (by simp),
   c5_group_limit_law.2.2.2.2.1 15 45 (by norm_num),
   c5_group_limit_law.2.2.2.2.2 limitedUser 5 (by norm_num [limitedUser, get_groups_restriction])⟩

/-- C6: the cooldown law: when the earlier guards pass and some granted
history item is younger than four hours, `give_editor` returns the Cooldown
outcome (not a failure) having performed no storage write — in particular no
WIP was set; once every granted item is at least four hours old the cooldown
check no longer holds; and a granted item younger than four hours always
trips it. -/
theorem c6_cooldown_law :
    (∀ (env : EditorEnv) (user_id : Int) (u : User),
      env.user = some u → u.has_active_violation = false →
      10 < u.trust_info.trust → is_limited u = false →
      user_on_cooldown env.now env.history = true →
      give_editor env user_id
        = GiveEditorResult.ok ⟨OperationStatus.cooldown, none⟩ []) ∧
    (∀ (now : Int) (hist : EditorHistory),
      (∀ item ∈ hist.history, item.granted = true → 60 * 60 * 4 ≤ now - item.date) →
      user_on_cooldown now (some hist) = false) ∧
    (∀ (now : Int) (hist : EditorHistory) (item : EditorHistoryItem),
      item ∈ hist.history → item.granted = true → now - item.date < 60 * 60 * 4 →
      user_on_cooldown now (some hist) = true) := by
  refine ⟨?_, ?_, ?_⟩
  · intro env user_id u hu hban htrust hlim hcool
    simp only [give_editor, hu, hban, Bool.false_eq_true, if_false]
    rw [if_neg (by omega : ¬(u.trust_info.trust ≤ 10))]
    simp [hlim, hcool]
  · intro now hist h
    simp only [user_on_cooldown, List.any_eq_false]
    intro item hitem
    simp only [Bool.and_eq_true, decide_eq_true_eq, not_and]
    intro hg
    have := h item hitem hg
    omega
  · intro now hist item hitem hg hd
    simp only [user_on_cooldown, List.any_eq_true]
    refine ⟨item, hitem, ?_⟩
    simp only [hg, Bool.true_and, decide_eq_true_eq]
    omega

/-- C6 witness: the cooldown law at concrete inputs: in `cooldownEnv` (one
granted item an hour old) the call returns Cooldown with no writes; in
`lapsedHistory` (granted item 4h01s old) the cooldown no longer holds; and
the hour-old item trips the check. -/
theorem c6_witness :
    give_editor cooldownEnv 9 = GiveEditorResult.ok ⟨OperationStatus.cooldown, none⟩ [] ∧
    user_on_cooldown 100000 (some lapsedHistory) = false ∧
    user_on_cooldown 100000 (some ⟨[{ group_id := 11, date := 100000 - 60 * 60, granted := true }]⟩) = true :=
  ⟨c6_cooldown_law.1 cooldownEnv 9 editorUser50 rfl rfl (by norm_num [editorUser50]) rfl rfl,
   c6_cooldown_law.2.1 100000 lapsedHistory (by decide),
   c6_cooldown_law.2.2 100000 ⟨[{ group_id := 11, date := 100000 - 60 * 60, granted := true }]⟩
     { group_id := 11, date := 100000 - 60 * 60, granted := true }
     (by simp) rfl (by norm_num)⟩

/-- C10: when the user exists, has no active violation, has trust above 10,
is under the group limit, is not on cooldown (vacuously true with no history
row) and holds no WIP, but the editor-history lookup returns no row,
`give_editor` raises (dereferencing None) instead of returning one of the
four typed outcomes, having performed no storage write. -/
theorem c10_missing_history_raises (env : EditorEnv) (user_id : Int) (u : User)
    (hu : env.user = some u) (hban : u.has_active_violation = false)
    (htrust : 10 < u.trust_info.trust) (hlim : is_limited u = false)
    (hwip : env.is_wip = false) (hh : env.history = none) :
    give_editor env user_id = GiveEditorResult.exc [] := by
  simp only [give_editor, hu, hban, Bool.false_eq_true, if_false]
  rw [if_neg (by omega : ¬(u.trust_info.trust ≤ 10))]
  simp [hlim, hwip, hh, user_on_cooldown]

/-- C10 witness: in `noHistoryEnv` every guard passes, the history row is
missing, and the call raises. -/
theorem c10_witness : give_editor noHistoryEnv 9 = GiveEditorResult.exc [] :=
  c10_missing_history_raises noHistoryEnv 9 editorUser50 rfl rfl
    (by norm_num [editorUser50]) rfl rfl rfl

/-- C1: WIP exclusivity across both grant entry points under the
event-loop scheduling that runs them (the check and the set are separated by
no await, so the region is atomic): running two check-and-set attempts from a
clear flag lets exactly the first proceed and blocks the second; both paths
set WIP only after observing it clear — `give_editor` writes `setWip` only
when the stored flag is false (in both its normal and its exception
outcomes), and the async path writes neither `setWip` nor a grant when a WIP
item exists; and a `give_editor` call that reaches the WIP check while the
flag is held returns the in-progress failure having performed no storage
write. -/
theorem c1_wip_exclusivity :
    (∀ s : Bool, s = false →
      (wip_check_and_set s).1 = GrantAttemptOutcome.proceeded ∧
      (wip_check_and_set (wip_check_and_set s).2).1 = GrantAttemptOutcome.blocked) ∧
    (∀ (env : EditorEnv) (user_id : Int) (resp : GiveEditorResponse)
        (ops : List StorageOp) (u g : Int),
      give_editor env user_id = GiveEditorResult.ok resp ops →
      StorageOp.setWip u g ∈ ops → env.is_wip = false) ∧
    (∀ (env : EditorEnv) (user_id : Int) (ops : List StorageOp) (u g : Int),
      give_editor env user_id = GiveEditorResult.exc ops →
      StorageOp.setWip u g ∈ ops → env.is_wip = false) ∧
    (∀ (env : EditorEnv) (user_id : Int) (u : User),
      env.user = some u → u.has_active_violation = false →
      10 < u.trust_info.trust → is_limited u = false →
      user_on_cooldown env.now env.history = false → env.is_wip = true →
      give_editor env user_id = GiveEditorResult.ok
        ⟨OperationStatus.fail, some ("Выдача уже производится, подожди, пожалуйста ⏳")⟩ []) ∧
    (∀ (env : TryGiveEnv) (user_id group_id : Int) (hst : EditorHistory),
      env.history = some hst → (∃ i ∈ hst.history, i.wip = true) →
      ∀ u g : Int,
        StorageOp.setWip u g ∉ (try_give_editor_and_update_history env user_id group_id).1 ∧
        StorageOp.addGranted u g ∉ (try_give_editor_and_update_history env user_id group_id).1) := by
  refine ⟨?_, ?_, ?_, ?_, ?_⟩
  · intro s hs
    subst hs
    exact ⟨rfl, rfl⟩
  · intro env user_id resp ops u g heq h
    unfold give_editor at heq
    repeat' split at heq
    all_goals simp_all [GiveEditorResult.ok.injEq]
  · intro env user_id ops u g heq h
    unfold give_editor at heq
    repeat' split at heq
    all_goals simp_all [GiveEditorResult.exc.injEq]
  · intro env user_id u hu hban htrust hlim hcool
    intro hwip
    simp only [give_editor, hu, hban, Bool.false_eq_true, if_false]
    rw [if_neg (by omega : ¬(u.trust_info.trust ≤ 10))]
    simp [hlim, hcool, hwip]
  · intro env user_id group_id hst hh hex u g
    obtain ⟨i, hi, hwip⟩ := hex
    have hmem : i ∈ hst.history.filter (fun i => i.wip) :=
      List.mem_filter.mpr ⟨hi, by simp [hwip]⟩
    have hne : (hst.history.filter (fun i => i.wip)).isEmpty = false := by
      cases hemp : (hst.history.filter (fun i => i.wip)).isEmpty
      · rfl
      · rw [List.isEmpty_iff] at hemp
        rw [hemp] at hmem
        simp at hmem
    constructor <;>
    · simp only [try_give_editor_and_update_history, hh]
      cases huser : env.user with
      | none => simp
      | some user =>
        split
        · simp
        · split
          · simp
          · simp [hne]

/-- C1 witness: from a clear flag the first check-and-set proceeds and the
second is blocked; and in `wipHeldEnv` (flag already held, all earlier
guards passing) `give_editor` returns the in-progress failure with no
storage write. -/
theorem c1_witness :
    ((wip_check_and_set false).1 = GrantAttemptOutcome.proceeded ∧
     (wip_check_and_set (wip_check_and_set false).2).1 = GrantAttemptOutcome.blocked) ∧
    give_editor wipHeldEnv 9 = GiveEditorResult.ok
      ⟨OperationStatus.fail, some ("Выдача уже производится, подожди, пожалуйста ⏳")⟩ [] :=
  ⟨c1_wip_exclusivity.1 false rfl,
   c1_wip_exclusivity.2.2.2.1 wipHeldEnv 9 editorUser50 rfl rfl
     (by norm_num [editorUser50]) rfl rfl rfl⟩

end Nng
